import Mathlib

/-!
Shallow embedding of the meshtastic_client repository (core.py, bot.py,
bots_manager.py) and proofs about its message routing, command dispatch and
bot lifecycle behaviour.

Modelling conventions:
* Python strings are modelled as `List Char` (`PyStr`); `pystr` builds one
  from a Lean string literal.
* `str.split()` / `str.strip()` are modelled by `pySplit` / `pyStrip`,
  splitting on runs of ASCII whitespace and dropping empty tokens, exactly
  as Python does on ASCII text.
* A Python method that can raise is modelled with `Except`; a `try/except`
  block is modelled by matching on the `Except` value.
* Callbacks and bot handlers are opaque values of a type parameter; the
  embedding records, in order, which callbacks are handed to a worker
  thread and which texts are passed to `send_message`.
* Wall-clock time in `TestBot._run_throughput_test` is idealised: a send is
  instantaneous and each loop iteration takes exactly the `time.sleep(0.5)`
  pause, so the `while time.time() - start_time < test_duration` condition
  is checked at elapsed times k * 0.5 s for k = 0, 1, 2, ...
-/

set_option autoImplicit false

namespace Mesh

/-- Python strings, modelled as lists of characters. -/
abbrev PyStr := List Char

/-- Build a `PyStr` from a Lean string literal. -/
def pystr (s : String) : PyStr := s.toList

/-- ASCII whitespace, the characters Python's `str.split()` and
`str.strip()` treat as separators on ASCII text. -/
def isSpaceChar (c : Char) : Bool :=
  c == ' ' || c == '\t' || c == '\n' || c == '\r' || c == '\x0b' || c == '\x0c'

/-- Worker for `pySplit`: `acc` holds the (reversed) current token. -/
def pySplitAux : PyStr → PyStr → List PyStr
  | [], acc => if acc = [] then [] else [acc.reverse]
  | c :: rest, acc =>
    if isSpaceChar c then
      if acc = [] then pySplitAux rest []
      else acc.reverse :: pySplitAux rest []
    else pySplitAux rest (c :: acc)

/-- Python `s.split()`: split on runs of whitespace, discarding empty
tokens (so leading and trailing whitespace yields no token). -/
def pySplit (s : PyStr) : List PyStr := pySplitAux s []

/-- Drop leading whitespace (Python `lstrip` on ASCII text). -/
def pyStripLeft : PyStr → PyStr
  | [] => []
  | c :: rest => if isSpaceChar c then pyStripLeft rest else c :: rest

/-- Drop trailing whitespace (Python `rstrip` on ASCII text). -/
def pyStripRight : PyStr → PyStr
  | [] => []
  | c :: rest =>
    match pyStripRight rest with
    | [] => if isSpaceChar c then [] else [c]
    | r => c :: r

/-- Python `s.strip()` on ASCII text. -/
def pyStrip (s : PyStr) : PyStr := pyStripRight (pyStripLeft s)

/-- Python `message.startswith('/')`. -/
def pyStartsWithSlash : PyStr → Bool
  | [] => false
  | c :: _ => c == '/'

/-- Python `" ".join(parts)`. -/
def joinSpace : List PyStr → PyStr
  | [] => []
  | [x] => x
  | x :: xs => x ++ ' ' :: joinSpace xs

/-- A parsed slash command: `parts[0][1:]` and `parts[1:]` in the source. -/
structure Command where
  name : PyStr
  args : List PyStr
  deriving Repr, DecidableEq

/-- The command-extraction steps shared verbatim by
`MeshtasticClient._handle_command` (core.py lines 116-118) and
`MeshtasticBot._handle_message` (bot.py lines 63-66): a text is a command
iff it starts with `/`; the text is stripped and split on whitespace, the
first token minus its leading `/` is the name, the remaining tokens the
args.  The `[]` branch of the match is unreachable for a text that starts
with `/` (see `Mesh.parse_never_errors`). -/
def parseCommand (message : PyStr) : Option Command :=
  if pyStartsWithSlash message then
    match pySplit (pyStrip message) with
    | [] => none
    | first :: rest => some ⟨first.drop 1, rest⟩
  else none

/-! Client state (core.py `MeshtasticClient`). -/

/-- Decoded port number of an inbound packet; the code only distinguishes
`portnums_pb2.TEXT_MESSAGE_APP` from everything else. -/
inductive PortNum where
  | textMessageApp
  | other
  deriving Repr, DecidableEq

/-- An inbound packet as consumed by `_on_message_received`: each field the
code reads with `.get(...)` is an `Option`, `none` meaning the key is
absent so the coded default applies. -/
structure Packet where
  decodedPortnum : Option PortNum
  decodedText : Option PyStr
  channel : Option Nat
  fromId : Option PyStr
  deriving Repr, DecidableEq

/-- State of a `MeshtasticClient`.  `interface` is `none` when
`self.interface is None`, and otherwise carries the rendering of
`self.interface.getMyNodeInfo()` used by the `/status` built-in.
`handlers` gives, per channel, the registered callbacks in registration
order (the code keys its dict by `str(channel)`, which is injective, so a
function from channel numbers is faithful). -/
structure ClientState (H : Type) where
  address : PyStr
  connected : Bool
  interface : Option PyStr
  handlers : Nat → List H

/-- Outcome of `meshtastic.tcp_interface.TCPInterface(self.address)`. -/
inductive TcpOutcome where
  | ok
  | raised
  deriving Repr, DecidableEq

/-- Outcome of `requests.get(f"http://{address}/hotspot-detect", timeout=5)`:
either a response with a status code, or a raised exception. -/
inductive ProbeOutcome where
  | status (code : Nat)
  | raised
  deriving Repr, DecidableEq

/-- Outcome of `self.interface.sendText(...)` once it is attempted. -/
inductive SendOutcome where
  | accepted
  | raised
  deriving Repr, DecidableEq

/-- `MeshtasticClient.connect` (core.py lines 33-57).  The transport
constructor runs first; if it raises, the `except` block sets
`self.connected = False` and `self.interface` keeps its old value.
Otherwise `self.interface` holds the fresh transport (rendering `info`)
and the liveness probe runs: a raised probe lands in the same `except`
block; a status of 200 sets `self.connected = True` and returns `True`;
any other status logs an error and returns `False` without touching
`self.connected`. -/
def connect {H : Type} (st : ClientState H) (info : PyStr)
    (tcp : TcpOutcome) (probe : ProbeOutcome) : ClientState H × Bool :=
  match tcp with
  | TcpOutcome.raised => ({ st with connected := false }, false)
  | TcpOutcome.ok =>
    match probe with
    | ProbeOutcome.raised =>
      ({ st with interface := some info, connected := false }, false)
    | ProbeOutcome.status code =>
      if code = 200 then
        ({ st with interface := some info, connected := true }, true)
      else
        ({ st with interface := some info }, false)

/-- `MeshtasticClient.send_message` (core.py lines 151-171): a no-op
returning `False` when `not self.connected or not self.interface`;
otherwise the transport send is attempted and a raised exception is caught
and converted to `False`.  No branch mutates the client state. -/
def send_message {H : Type} (st : ClientState H) (message : PyStr)
    (channel : Nat) (transport : SendOutcome) : ClientState H × Bool :=
  if !st.connected || st.interface.isNone then (st, false)
  else
    match transport with
    | SendOutcome.accepted => (st, true)
    | SendOutcome.raised => (st, false)

/-- `MeshtasticClient.register_message_handler` (core.py lines 173-185):
append the callback to the channel's list, creating the list on first
registration. -/
def register_message_handler {H : Type} (st : ClientState H) (handler : H)
    (channel : Nat) : ClientState H :=
  { st with
    handlers := fun c =>
      if c = channel then st.handlers c ++ [handler] else st.handlers c }

/-- The exact help text sent by the `/help` built-in (core.py 123-131). -/
def helpTextBuiltin : PyStr :=
  pystr "Available commands:\n/help - Show this help message\n/ping - Test connectivity\n/status - Show client status\n/echo <message> - Echo a message back\n/channel list - List available channels\n/channel join <name> - Join a channel"

/-- Python `f"{b}"` for a boolean. -/
def pyBoolRepr (b : Bool) : PyStr := if b then pystr "True" else pystr "False"

/-- The text assembled by the `/status` built-in (core.py 137-145). -/
def statusText (connected : Bool) (address : PyStr) (interface : Option PyStr) :
    PyStr :=
  let base := pystr "Meshtastic Client Status:\nConnected: " ++
    pyBoolRepr connected ++ pystr "\nNode: " ++ address ++ pystr "\n"
  match interface with
  | some info => base ++ pystr "Node info: " ++ info ++ pystr "\n"
  | none => base

/-- `MeshtasticClient._handle_command` (core.py lines 108-149), returning
the list of `(text, channel)` pairs passed to `self.send_message`.
`parts[0]` raises `IndexError` when the split is empty, modelled by the
`Except.error` branch (unreachable for a text starting with `/`).  The
`from_id` argument is only logged by the code, so it is unused here.  A
command name matching none of `help`, `ping`, `status`, `echo` falls off
the `if`/`elif` chain with no send and no error. -/
def handleCommand {H : Type} (st : ClientState H) (message : PyStr)
    (channel : Nat) (fromId : PyStr) : Except Unit (List (PyStr × Nat)) :=
  match pySplit (pyStrip message) with
  | [] => Except.error ()
  | first :: rest =>
    let command := first.drop 1
    let args := rest
    if command = pystr "help" then
      Except.ok [(helpTextBuiltin, channel)]
    else if command = pystr "ping" then
      Except.ok [(pystr "Pong!", channel)]
    else if command = pystr "status" then
      Except.ok [(statusText st.connected st.address st.interface, channel)]
    else if command = pystr "echo" then
      let echoText :=
        if args.isEmpty then pystr "You didn't say anything!" else joinSpace args
      Except.ok [(pystr "Echo: " ++ echoText, channel)]
    else
      Except.ok []

/-- Observable effects of processing one inbound packet: the send requests
issued by the built-in command path, and the callbacks handed to a worker
thread, in order. -/
structure InboundEffects (H : Type) where
  builtinSends : List (PyStr × Nat)
  handlerRuns : List H

/-- `MeshtasticClient._on_message_received` (core.py lines 81-106).
Non-text packets are dropped; text, channel and sender default to `""`,
`0` and `"unknown"`; a text starting with `/` first runs the built-in
command table, then (always) the channel's registered handlers each get a
thread, in registration order.  The surrounding `try/except` means an
exception inside `_handle_command` would skip handler delivery (the
`Except.error` branch). -/
def onMessageReceived {H : Type} (st : ClientState H) (p : Packet) :
    InboundEffects H :=
  if p.decodedPortnum = some PortNum.textMessageApp then
    let message := p.decodedText.getD []
    let channel := p.channel.getD 0
    let fromId := p.fromId.getD (pystr "unknown")
    if pyStartsWithSlash message then
      match handleCommand st message channel fromId with
      | Except.error _ => InboundEffects.mk [] []
      | Except.ok sends => InboundEffects.mk sends (st.handlers channel)
    else
      InboundEffects.mk [] (st.handlers channel)
  else
    InboundEffects.mk [] []

/-! Bot lifecycle (bot.py `MeshtasticBot`). -/

/-- The fields of `MeshtasticBot` that its lifecycle reads and writes.
`taskLive` holds iff a background thread is running: `start` launches one,
and after `stop` sets `running = False` the `while self.running` run loop
exits and `stop` joins the thread, so no task lingers. -/
structure Bot where
  name : PyStr
  channel : Nat
  running : Bool
  taskLive : Bool
  deriving Repr, DecidableEq

/-- Observable events of a lifecycle call: a `logger.warning`, the launch
of the background thread, or a text passed to `self.client.send_message`
on the bot's channel. -/
inductive BotEvent where
  | warned
  | taskLaunched
  | sent (text : PyStr) (channel : Nat)
  deriving Repr, DecidableEq

/-- `MeshtasticBot.start` (bot.py lines 105-119): a warning no-op when
already running; otherwise set `running`, launch the thread, and announce
being online. -/
def botStart (b : Bot) : Bot × List BotEvent :=
  if b.running then (b, [BotEvent.warned])
  else
    ({ b with running := true, taskLive := true },
     [BotEvent.taskLaunched,
      BotEvent.sent (b.name ++ pystr " is now online!") b.channel])

/-- `MeshtasticBot.stop` (bot.py lines 121-134): a warning no-op when not
running; otherwise clear `running` (the run loop then exits and the
`join(timeout=2.0)` reaps the thread) and announce going offline. -/
def botStop (b : Bot) : Bot × List BotEvent :=
  if !b.running then (b, [BotEvent.warned])
  else
    ({ b with running := false, taskLive := false },
     [BotEvent.sent (b.name ++ pystr " is going offline!") b.channel])

/-! Bot command table (bot.py `register_command` / `_handle_message`). -/

/-- One value of the `self.commands` dict: the handler and its help text. -/
structure CommandEntry (Hd : Type) where
  handler : Hd
  helpText : PyStr
  deriving Repr, DecidableEq

/-- Python dict assignment `d[k] = v` on an insertion-ordered association
list: overwrite in place if the key is present, else append. -/
def dictSet {K V : Type} [DecidableEq K] (d : List (K × V)) (k : K) (v : V) :
    List (K × V) :=
  match d with
  | [] => [(k, v)]
  | (k0, v0) :: rest =>
    if k0 = k then (k, v) :: rest else (k0, v0) :: dictSet rest k v

/-- Python dict lookup `d.get(k)` on an association list. -/
def dictGet {K V : Type} [DecidableEq K] (d : List (K × V)) (k : K) : Option V :=
  match d with
  | [] => none
  | (k0, v0) :: rest => if k0 = k then some v0 else dictGet rest k

/-- The log line emitted by `register_command`. -/
inductive RegLogEvent where
  | registered (name : PyStr)
  deriving Repr, DecidableEq

/-- `MeshtasticBot.register_command` (bot.py lines 40-52): unconditionally
store the entry under the given name (overwriting any previous one) and
log the registration.  The code performs no check on the name, not even
for emptiness. -/
def register_command {Hd : Type} (commands : List (PyStr × CommandEntry Hd))
    (name : PyStr) (handler : Hd) (ht : PyStr) :
    List (PyStr × CommandEntry Hd) × List RegLogEvent :=
  (dictSet commands name ⟨handler, ht⟩, [RegLogEvent.registered name])

/-- `MeshtasticBot._handle_message` (bot.py lines 54-74): parse the text;
when it is a command owned by this bot, return the handler to invoke with
the args; otherwise do nothing. -/
def handleMessage {Hd : Type} (commands : List (PyStr × CommandEntry Hd))
    (message : PyStr) : Option (Hd × List PyStr) :=
  if pyStartsWithSlash message then
    match pySplit (pyStrip message) with
    | [] => none
    | first :: rest =>
      match dictGet commands (first.drop 1) with
      | some entry => some (entry.handler, rest)
      | none => none
  else none

/-! Bot supervisor (bots_manager.py `BotsManager`). -/

/-- State of a `BotsManager`: the live bots in creation order and the
class registry; a constructor may raise, modelled by `Except` with the
rendering of the exception text. -/
structure ManagerState (B : Type) where
  bots : List B
  botClasses : List (PyStr × (PyStr → Nat → Except PyStr B))

/-- The log lines `create_bot` can emit. -/
inductive CreateLog where
  | classNotFound (className : PyStr)
  | createFailed (err : PyStr)
  | created (className : PyStr) (botName : PyStr) (channel : Nat)

/-- `BotsManager.create_bot` (bots_manager.py lines 37-60): unknown class
names log an error and return `None`; a constructor that raises is caught,
logged and converted to `None` (the bot list is untouched); on success the
instance is appended to `self.bots` and returned. -/
def create_bot {B : Type} (m : ManagerState B) (botClassName : PyStr)
    (botName : PyStr) (channel : Nat) :
    ManagerState B × Option B × List CreateLog :=
  match dictGet m.botClasses botClassName with
  | none => (m, none, [CreateLog.classNotFound botClassName])
  | some ctor =>
    match ctor botName channel with
    | Except.error e => (m, none, [CreateLog.createFailed e])
    | Except.ok b =>
      ({ m with bots := m.bots ++ [b] }, some b,
       [CreateLog.created botClassName botName channel])

/-! Throughput test (bot.py `TestBot._run_throughput_test`). -/

/-- The `while time.time() - start_time < test_duration` loop of the
throughput test, with time idealised as in the module docstring: one
iteration per half-second tick, `sent` incremented when the transport
accepts the send. -/
def throughputLoop (accept : Bool) : Nat → Nat → Nat
  | 0, sent => sent
  | ticks + 1, sent => throughputLoop accept ticks (if accept then sent + 1 else sent)

/-- What the throughput test reports at the end (bot.py lines 313-322):
either the message count together with `bytes_sent = messages_sent * 200`,
or the explicit failure text "Throughput test failed - no messages sent". -/
inductive ThroughputResult where
  | report (messagesSent : Nat) (bytesSent : Nat)
  | noMessages
  deriving Repr, DecidableEq

/-- `TestBot._run_throughput_test` (bot.py lines 294-324) over a window of
`testDuration` seconds with the coded 0.5 s spacing: the loop body runs at
elapsed times k * 0.5 s for k * 0.5 < testDuration, i.e. `testDuration * 2`
times. -/
def runThroughputTest (accept : Bool) (testDuration : Nat) : ThroughputResult :=
  let messagesSent := throughputLoop accept (testDuration * 2) 0
  if messagesSent > 0 then
    ThroughputResult.report messagesSent (messagesSent * 200)
  else
    ThroughputResult.noMessages

/-! Sample states used by the witness theorems. -/

/-- A connected client with one registered handler on channel 0. -/
def sampleClient : ClientState Nat :=
  { address := pystr "10.0.0.5", connected := true,
    interface := some (pystr "node"),
    handlers := fun c => if c = 0 then [7] else [] }

/-- A freshly constructed, disconnected client. -/
def freshClient : ClientState Nat :=
  { address := pystr "10.0.0.5", connected := false, interface := none,
    handlers := fun _ => [] }

/-- The packet of the end-to-end echo scenario. -/
def echoPacket : Packet :=
  { decodedPortnum := some PortNum.textMessageApp,
    decodedText := some (pystr "/echo foo bar"),
    channel := some 0, fromId := some (pystr "abc") }

/-- A plain (non-command) text packet. -/
def plainPacket : Packet :=
  { decodedPortnum := some PortNum.textMessageApp,
    decodedText := some (pystr "hello everyone"),
    channel := some 0, fromId := some (pystr "abc") }

/-- A packet carrying a command no built-in owns. -/
def frobPacket : Packet :=
  { decodedPortnum := some PortNum.textMessageApp,
    decodedText := some (pystr "/frobnicate 1"),
    channel := some 0, fromId := some (pystr "abc") }

/-- A manager whose registry has one working and one raising constructor. -/
def sampleManager : ManagerState Nat :=
  { bots := [],
    botClasses :=
      [(pystr "HelloWorldBot", fun _ _ => Except.ok 1),
       (pystr "FailingBot", fun _ _ => Except.error (pystr "boom"))] }

/-- A bot in the Stopped state. -/
def stoppedBot : Bot :=
  { name := pystr "HelloBot", channel := 0, running := false, taskLive := false }

/-- A bot in the Running state. -/
def runningBot : Bot :=
  { name := pystr "HelloBot", channel := 0, running := true, taskLive := true }

/-! Helper lemmas about the string primitives. -/

/-- Splitting with a nonempty pending token never yields the empty list. -/
theorem pySplitAux_ne_nil : ∀ (l acc : PyStr), acc ≠ [] → pySplitAux l acc ≠ [] := by
  intro l
  induction l with
  | nil =>
    intro acc h
    simp [pySplitAux, h]
  | cons c rest ih =>
    intro acc h
    cases hc : isSpaceChar c with
    | true => simp [pySplitAux, hc, h]
    | false =>
      simp only [pySplitAux, hc, Bool.false_eq_true, if_false]
      exact ih (c :: acc) (List.cons_ne_nil c acc)

/-- Left-stripping keeps a string whose head is not whitespace. -/
theorem pyStripLeft_cons_of_not_space {c : Char} (l : PyStr)
    (hc : isSpaceChar c = false) : pyStripLeft (c :: l) = c :: l := by
  simp [pyStripLeft, hc]

/-- Right-stripping keeps a non-whitespace head character. -/
theorem pyStripRight_cons_of_not_space {c : Char} (l : PyStr)
    (hc : isSpaceChar c = false) :
    pyStripRight (c :: l) = c :: pyStripRight l := by
  rw [pyStripRight]
  cases h : pyStripRight l with
  | nil => simp [hc]
  | cons a t => simp

/-- Stripping keeps a non-whitespace head character. -/
theorem pyStrip_cons_of_not_space {c : Char} (l : PyStr)
    (hc : isSpaceChar c = false) :
    pyStrip (c :: l) = c :: pyStripRight l := by
  rw [pyStrip, pyStripLeft_cons_of_not_space l hc,
    pyStripRight_cons_of_not_space l hc]

/-- Splitting a string whose head is not whitespace yields a token. -/
theorem pySplit_cons_ne_nil {c : Char} (l : PyStr) (hc : isSpaceChar c = false) :
    pySplit (c :: l) ≠ [] := by
  rw [pySplit]
  simp only [pySplitAux, hc, Bool.false_eq_true, if_false]
  exact pySplitAux_ne_nil l [c] (List.cons_ne_nil c [])

/-- A text starting with the command prefix always splits into at least one
token after stripping, so `parts[0]` never raises. -/
theorem split_strip_ne_nil_of_slash (s : PyStr)
    (h : pyStartsWithSlash s = true) : pySplit (pyStrip s) ≠ [] := by
  cases s with
  | nil => simp [pyStartsWithSlash] at h
  | cons c l =>
    have hc : c = '/' := by
      have := h
      simp [pyStartsWithSlash] at this
      exact this
    subst hc
    rw [pyStrip_cons_of_not_space l (by decide)]
    exact pySplit_cons_ne_nil (c := '/') (pyStripRight l) (by decide)

/-- The built-in command dispatcher never raises on a text that starts with
the command prefix. -/
theorem handleCommand_ok {H : Type} (st : ClientState H) (message : PyStr)
    (channel : Nat) (fromId : PyStr) (h : pyStartsWithSlash message = true) :
    ∃ sends, handleCommand st message channel fromId = Except.ok sends := by
  have hne := split_strip_ne_nil_of_slash message h
  obtain ⟨first, rest, hs⟩ := List.exists_cons_of_ne_nil hne
  rw [handleCommand, hs]
  dsimp only
  split_ifs <;> exact ⟨_, rfl⟩

/-- Inversion of `parseCommand` on a successful parse. -/
theorem parseCommand_some_inv (t : PyStr) (cmd : Command)
    (h : parseCommand t = some cmd) :
    pyStartsWithSlash t = true ∧
    ∃ first rest, pySplit (pyStrip t) = first :: rest ∧
      cmd = Command.mk (first.drop 1) rest := by
  by_cases hs : pyStartsWithSlash t = true
  · refine ⟨hs, ?_⟩
    rw [parseCommand, if_pos hs] at h
    cases hsp : pySplit (pyStrip t) with
    | nil => rw [hsp] at h; simp at h
    | cons f r =>
      rw [hsp] at h
      simp only [Option.some.injEq] at h
      exact ⟨f, r, rfl, h.symm⟩
  · rw [parseCommand, if_neg hs] at h
    simp at h

/-! Claim theorems. -/

/-- C2: command parsing is total over all message texts and never errors.
A text not beginning with a slash is not a command; otherwise the text is
trimmed and split on ASCII whitespace, the first token minus its leading
slash is the command name and the remaining tokens are the args in their
original order; in particular the text made of a bare slash parses to a
command with empty name and no args. -/
theorem parse_total_spec :
    (∀ s : PyStr, pyStartsWithSlash s = false → parseCommand s = none) ∧
    (∀ s : PyStr, pyStartsWithSlash s = true →
      ∃ first rest, pySplit (pyStrip s) = first :: rest ∧
        parseCommand s = some (Command.mk (first.drop 1) rest)) ∧
    parseCommand (pystr "/weather now") =
      some (Command.mk (pystr "weather") [pystr "now"]) ∧
    parseCommand (pystr "no slash") = none ∧
    parseCommand (pystr "/") = some (Command.mk [] []) := by
  refine ⟨?_, ?_, by decide, by decide, by decide⟩
  · intro s h
    simp [parseCommand, h]
  · intro s h
    obtain ⟨first, rest, hs⟩ :=
      List.exists_cons_of_ne_nil (split_strip_ne_nil_of_slash s h)
    refine ⟨first, rest, hs, ?_⟩
    rw [parseCommand, if_pos h, hs]

/-- Witness for the parsing claim at two concrete texts. -/
theorem parse_total_spec_witness :
    parseCommand (pystr "hello") = none ∧
    (∃ first rest, pySplit (pyStrip (pystr "/a b")) = first :: rest ∧
      parseCommand (pystr "/a b") = some (Command.mk (first.drop 1) rest)) :=
  ⟨parse_total_spec.1 (pystr "hello") (by decide),
   parse_total_spec.2.1 (pystr "/a b") (by decide)⟩

/-- C1: an inbound text packet whose text begins with a slash both runs
the built-in command table against the packet's channel (never raising, so
the subsequent handler fan-out is never skipped) and hands the message to
every handler registered for that channel; in particular the text
"/echo foo bar" produces exactly one built-in send "Echo: foo bar" on the
packet's channel while handler delivery still occurs. -/
theorem builtin_and_dispatch_spec {H : Type} (st : ClientState H)
    (p : Packet) (t : PyStr)
    (hport : p.decodedPortnum = some PortNum.textMessageApp)
    (htext : p.decodedText = some t)
    (hslash : pyStartsWithSlash t = true) :
    (onMessageReceived st p).handlerRuns = st.handlers (p.channel.getD 0) ∧
    (∃ sends,
      handleCommand st t (p.channel.getD 0) (p.fromId.getD (pystr "unknown")) =
        Except.ok sends ∧
      (onMessageReceived st p).builtinSends = sends) ∧
    (t = pystr "/echo foo bar" →
      (onMessageReceived st p).builtinSends =
        [(pystr "Echo: foo bar", p.channel.getD 0)]) := by
  obtain ⟨sends, hok⟩ :=
    handleCommand_ok st t (p.channel.getD 0) (p.fromId.getD (pystr "unknown")) hslash
  have hrun : onMessageReceived st p =
      InboundEffects.mk sends (st.handlers (p.channel.getD 0)) := by
    simp [onMessageReceived, hport, htext, hslash, hok]
  refine ⟨by rw [hrun], ⟨sends, hok, by rw [hrun]⟩, ?_⟩
  intro ht
  subst ht
  have hecho : handleCommand st (pystr "/echo foo bar") (p.channel.getD 0)
      (p.fromId.getD (pystr "unknown")) =
      Except.ok [(pystr "Echo: foo bar", p.channel.getD 0)] := rfl
  have hs := hok.symm.trans hecho
  rw [hrun]
  simpa using hs

/-- Witness for the dual-handling claim on the end-to-end echo packet. -/
theorem builtin_and_dispatch_spec_witness :
    (onMessageReceived sampleClient echoPacket).handlerRuns =
      sampleClient.handlers 0 ∧
    (∃ sends,
      handleCommand sampleClient (pystr "/echo foo bar") 0 (pystr "abc") =
        Except.ok sends ∧
      (onMessageReceived sampleClient echoPacket).builtinSends = sends) ∧
    (pystr "/echo foo bar" = pystr "/echo foo bar" →
      (onMessageReceived sampleClient echoPacket).builtinSends =
        [(pystr "Echo: foo bar", 0)]) :=
  builtin_and_dispatch_spec sampleClient echoPacket (pystr "/echo foo bar")
    rfl rfl (by decide)

/-- C10: an inbound command whose name is none of help, ping, status or
echo falls off the end of the built-in dispatch chain with no outbound
send and no error, while the message is still delivered to the channel's
registered handlers. -/
theorem unmatched_builtin_spec {H : Type} (st : ClientState H) (p : Packet)
    (t : PyStr) (cmd : Command)
    (hport : p.decodedPortnum = some PortNum.textMessageApp)
    (htext : p.decodedText = some t)
    (hparse : parseCommand t = some cmd)
    (hn1 : cmd.name ≠ pystr "help") (hn2 : cmd.name ≠ pystr "ping")
    (hn3 : cmd.name ≠ pystr "status") (hn4 : cmd.name ≠ pystr "echo") :
    handleCommand st t (p.channel.getD 0) (p.fromId.getD (pystr "unknown")) =
      Except.ok [] ∧
    (onMessageReceived st p).builtinSends = [] ∧
    (onMessageReceived st p).handlerRuns = st.handlers (p.channel.getD 0) := by
  obtain ⟨hslash, first, rest, hsp, hcmd⟩ := parseCommand_some_inv t cmd hparse
  have hname : first.drop 1 = cmd.name := by rw [hcmd]
  have hok : handleCommand st t (p.channel.getD 0)
      (p.fromId.getD (pystr "unknown")) = Except.ok [] := by
    rw [handleCommand, hsp]
    dsimp only
    rw [hname]
    simp [hn1, hn2, hn3, hn4]
  refine ⟨hok, ?_, ?_⟩ <;>
    simp [onMessageReceived, hport, htext, hslash, hok]

/-- Witness for the unmatched-command claim at a concrete command. -/
theorem unmatched_builtin_spec_witness :
    handleCommand sampleClient (pystr "/frobnicate 1") 0 (pystr "abc") =
      Except.ok [] ∧
    (onMessageReceived sampleClient frobPacket).builtinSends = [] ∧
    (onMessageReceived sampleClient frobPacket).handlerRuns =
      sampleClient.handlers 0 :=
  unmatched_builtin_spec sampleClient frobPacket (pystr "/frobnicate 1")
    (Command.mk (pystr "frobnicate") [pystr "1"]) rfl rfl (by decide)
    (by decide) (by decide) (by decide) (by decide)

/-- C3: handler registration appends to the channel's subscriber list,
preserving insertion order, with no deduplication (registering the same
callback twice yields two entries and hence two deliveries), and leaves
other channels untouched; dispatching a message on a channel with zero
subscribers completes without error and has no observable effect; when
subscribers exist, the callbacks run for the message are exactly the
channel's registration list, in registration order, one thread each. -/
theorem handler_registry_spec {H : Type} :
    (∀ (st : ClientState H) (h : H) (ch : Nat),
      (register_message_handler st h ch).handlers ch = st.handlers ch ++ [h]) ∧
    (∀ (st : ClientState H) (h : H) (ch c : Nat), c ≠ ch →
      (register_message_handler st h ch).handlers c = st.handlers c) ∧
    (∀ (st : ClientState H) (h : H) (ch : Nat),
      (register_message_handler (register_message_handler st h ch) h ch).handlers ch =
        st.handlers ch ++ [h, h]) ∧
    (∀ (st : ClientState H) (p : Packet) (t : PyStr),
      p.decodedPortnum = some PortNum.textMessageApp →
      p.decodedText = some t →
      pyStartsWithSlash t = false →
      onMessageReceived st p =
        InboundEffects.mk [] (st.handlers (p.channel.getD 0))) ∧
    (∀ (st : ClientState H) (p : Packet) (t : PyStr),
      p.decodedPortnum = some PortNum.textMessageApp →
      p.decodedText = some t →
      pyStartsWithSlash t = false →
      st.handlers (p.channel.getD 0) = [] →
      (onMessageReceived st p).handlerRuns = []) := by
  refine ⟨?_, ?_, ?_, ?_, ?_⟩
  · intro st h ch
    simp [register_message_handler]
  · intro st h ch c hc
    simp [register_message_handler, hc]
  · intro st h ch
    simp [register_message_handler]
  · intro st p t hport htext hplain
    simp [onMessageReceived, hport, htext, hplain]
  · intro st p t hport htext hplain hzero
    simp [onMessageReceived, hport, htext, hplain, hzero]

/-- Witness for the handler-registry claim at a concrete client. -/
theorem handler_registry_spec_witness :
    (register_message_handler (register_message_handler freshClient 5 0) 5 0).handlers 0 =
      [5, 5] ∧
    (onMessageReceived freshClient frobPacket).handlerRuns = [] :=
  ⟨(handler_registry_spec.2.2.1 freshClient 5 0).trans rfl,
   handler_registry_spec.2.2.2.2 freshClient plainPacket (pystr "hello everyone")
     rfl rfl (by decide) rfl⟩

/-- C4 counterexample: calling `connect` on an already-Connected client
whose liveness probe completes with status 404 returns false but leaves
the client Connected, contradicting the claim that any failure leaves the
state at Disconnected for every starting state. -/
theorem connect_claim_counterexample :
    sampleClient.connected = true ∧
    (connect sampleClient (pystr "info") TcpOutcome.ok (ProbeOutcome.status 404)).2 = false ∧
    (connect sampleClient (pystr "info") TcpOutcome.ok (ProbeOutcome.status 404)).1.connected = true :=
  ⟨rfl, rfl, rfl⟩

/-- C4 amended: `connect` returns true and sets Connected exactly when the
transport is established and the probe answers 200; starting from
Disconnected, any failure leaves the state Disconnected with a false
return; a raised exception in either step forces Disconnected from any
starting state; but a probe that completes with a non-200 status leaves
the connected flag unchanged (so an already-Connected client stays
Connected on that failure path). -/
theorem connect_spec {H : Type} (st : ClientState H) (info : PyStr)
    (tcp : TcpOutcome) (probe : ProbeOutcome) :
    ((connect st info tcp probe).2 = true ↔
      tcp = TcpOutcome.ok ∧ probe = ProbeOutcome.status 200) ∧
    ((connect st info tcp probe).2 = true →
      (connect st info tcp probe).1.connected = true) ∧
    (st.connected = false → (connect st info tcp probe).2 = false →
      (connect st info tcp probe).1.connected = false) ∧
    (tcp = TcpOutcome.raised ∨ probe = ProbeOutcome.raised →
      (connect st info tcp probe).1.connected = false) ∧
    (∀ code, tcp = TcpOutcome.ok → probe = ProbeOutcome.status code →
      code ≠ 200 → (connect st info tcp probe).1.connected = st.connected) := by
  cases tcp with
  | raised => simp [connect]
  | ok =>
    cases probe with
    | raised => simp [connect]
    | status code =>
      by_cases hc : code = 200
      · subst hc
        simp [connect]
      · simp [connect, hc]

/-- Witness for the amended connect claim at concrete outcomes. -/
theorem connect_spec_witness :
    (connect freshClient (pystr "info") TcpOutcome.ok (ProbeOutcome.status 200)).2 = true ∧
    (connect freshClient (pystr "info") TcpOutcome.raised (ProbeOutcome.status 200)).1.connected = false ∧
    (connect freshClient (pystr "info") TcpOutcome.ok (ProbeOutcome.status 404)).1.connected = freshClient.connected :=
  ⟨(connect_spec freshClient (pystr "info") TcpOutcome.ok (ProbeOutcome.status 200)).1.mpr ⟨rfl, rfl⟩,
   (connect_spec freshClient (pystr "info") TcpOutcome.raised (ProbeOutcome.status 200)).2.2.2.1 (Or.inl rfl),
   (connect_spec freshClient (pystr "info") TcpOutcome.ok (ProbeOutcome.status 404)).2.2.2.2 404 rfl rfl (by decide)⟩

/-- C5: `start` on a Running bot and `stop` on a Stopped bot are warning
no-ops; from Stopped, calling `start` twice launches exactly one
background task and sends exactly one online announcement, and then
calling `stop` twice sends exactly one offline announcement and leaves no
live task. -/
theorem bot_lifecycle_spec (b : Bot) :
    (b.running = true → botStart b = (b, [BotEvent.warned])) ∧
    (b.running = false → botStop b = (b, [BotEvent.warned])) ∧
    (b.running = false →
      (botStart b).1.running = true ∧
      (botStart b).1.taskLive = true ∧
      (botStart b).2 =
        [BotEvent.taskLaunched,
         BotEvent.sent (b.name ++ pystr " is now online!") b.channel] ∧
      botStart (botStart b).1 = ((botStart b).1, [BotEvent.warned]) ∧
      (botStop (botStart b).1).2 =
        [BotEvent.sent (b.name ++ pystr " is going offline!") b.channel] ∧
      (botStop (botStart b).1).1.running = false ∧
      (botStop (botStart b).1).1.taskLive = false ∧
      botStop (botStop (botStart b).1).1 =
        ((botStop (botStart b).1).1, [BotEvent.warned])) := by
  refine ⟨?_, ?_, ?_⟩
  · intro h
    simp [botStart, h]
  · intro h
    simp [botStop, h]
  · intro h
    simp [botStart, botStop, h]

/-- Witness for the bot-lifecycle claim at concrete bots. -/
theorem bot_lifecycle_spec_witness :
    botStart runningBot = (runningBot, [BotEvent.warned]) ∧
    (botStart stoppedBot).2 =
      [BotEvent.taskLaunched, BotEvent.sent (pystr "HelloBot is now online!") 0] ∧
    (botStop (botStart stoppedBot).1).2 =
      [BotEvent.sent (pystr "HelloBot is going offline!") 0] :=
  ⟨(bot_lifecycle_spec runningBot).1 rfl,
   ((bot_lifecycle_spec stoppedBot).2.2 rfl).2.2.1,
   ((bot_lifecycle_spec stoppedBot).2.2 rfl).2.2.2.2.1⟩

/-- C6: `send_message` never mutates the client state; when the client is
not connected it returns false; when it is connected (with a live
transport object, which every reachable Connected state has) it returns
true exactly when the transport accepts the send, a raised transport
exception being caught and converted to a false return. -/
theorem send_message_spec {H : Type} (st : ClientState H) (msg : PyStr)
    (ch : Nat) (tr : SendOutcome) :
    (send_message st msg ch tr).1 = st ∧
    (st.connected = false → (send_message st msg ch tr).2 = false) ∧
    (st.connected = true → st.interface.isSome = true →
      ((send_message st msg ch tr).2 = true ↔ tr = SendOutcome.accepted)) := by
  refine ⟨?_, ?_, ?_⟩
  · rw [send_message.eq_def]
    split
    · rfl
    · cases tr <;> rfl
  · intro h
    simp [send_message, h]
  · intro hc hi
    cases hin : st.interface with
    | none => rw [hin] at hi; simp at hi
    | some v =>
      cases tr <;> simp [send_message, hc, hin]

/-- Witness for the send claim: a disconnected client refuses, a connected
one mirrors the transport. -/
theorem send_message_spec_witness :
    (send_message freshClient (pystr "hi") 0 SendOutcome.accepted).2 = false ∧
    ((send_message sampleClient (pystr "hi") 0 SendOutcome.accepted).2 = true ↔
      SendOutcome.accepted = SendOutcome.accepted) :=
  ⟨(send_message_spec freshClient (pystr "hi") 0 SendOutcome.accepted).2.1 rfl,
   (send_message_spec sampleClient (pystr "hi") 0 SendOutcome.accepted).2.2 rfl rfl⟩

/-- Dict assignment makes the key look up to the new value. -/
theorem dictGet_dictSet {K V : Type} [DecidableEq K] (d : List (K × V))
    (k : K) (v : V) : dictGet (dictSet d k v) k = some v := by
  induction d with
  | nil => simp [dictSet, dictGet]
  | cons p rest ih =>
    obtain ⟨k0, v0⟩ := p
    by_cases h : k0 = k
    · simp [dictSet, dictGet, h]
    · simp [dictSet, dictGet, h, ih]

/-- Assigning a present key keeps the key sequence unchanged. -/
theorem keys_dictSet_of_mem {K V : Type} [DecidableEq K] (d : List (K × V))
    (k : K) (v : V) (hm : k ∈ d.map Prod.fst) :
    (dictSet d k v).map Prod.fst = d.map Prod.fst := by
  induction d with
  | nil => simp at hm
  | cons p rest ih =>
    obtain ⟨k0, v0⟩ := p
    by_cases h : k0 = k
    · simp [dictSet, h]
    · have hm' : k ∈ rest.map Prod.fst := by
        simp at hm
        rcases hm with hm | hm
        · exact absurd hm.symm h
        · simpa using hm
      simp [dictSet, h, ih hm']

/-- Assigning an absent key appends it to the key sequence. -/
theorem keys_dictSet_of_not_mem {K V : Type} [DecidableEq K] (d : List (K × V))
    (k : K) (v : V) (hm : k ∉ d.map Prod.fst) :
    (dictSet d k v).map Prod.fst = d.map Prod.fst ++ [k] := by
  induction d with
  | nil => simp [dictSet]
  | cons p rest ih =>
    obtain ⟨k0, v0⟩ := p
    by_cases h : k0 = k
    · exact absurd (by simp [h]) hm
    · have hm' : k ∉ rest.map Prod.fst := fun hx => hm (by simp [hx])
      simp [dictSet, h, ih hm']

/-- C7 counterexample: `register_command` accepts the empty command name
(the code performs no validation at all), contradicting the claim that
registration requires a non-empty name. -/
theorem register_command_empty_name_counterexample :
    (register_command ([] : List (PyStr × CommandEntry Nat)) [] 7 (pystr "no help")).1 =
      [([], CommandEntry.mk 7 (pystr "no help"))] ∧
    dictGet (register_command ([] : List (PyStr × CommandEntry Nat)) [] 7 (pystr "no help")).1 [] =
      some (CommandEntry.mk 7 (pystr "no help")) :=
  ⟨rfl, rfl⟩

/-- C7 amended: `register_command` stores the entry under the given name,
overwriting any prior entry for that name (last registration wins and keys
stay unique per owner), logs exactly one registration line, and performs
no validation on the name whatsoever, accepting even the empty name. -/
theorem register_command_spec {Hd : Type} (d : List (PyStr × CommandEntry Hd))
    (name : PyStr) (h1 h2 : Hd) (t1 t2 : PyStr) :
    dictGet (register_command d name h1 t1).1 name = some (CommandEntry.mk h1 t1) ∧
    dictGet (register_command (register_command d name h1 t1).1 name h2 t2).1 name =
      some (CommandEntry.mk h2 t2) ∧
    (register_command d name h1 t1).2 = [RegLogEvent.registered name] ∧
    ((d.map Prod.fst).Nodup →
      (((register_command d name h1 t1).1).map Prod.fst).Nodup) := by
  refine ⟨dictGet_dictSet d name (CommandEntry.mk h1 t1),
    dictGet_dictSet _ name (CommandEntry.mk h2 t2), rfl, ?_⟩
  intro hnd
  by_cases hm : name ∈ d.map Prod.fst
  · rw [register_command] at *
    rw [keys_dictSet_of_mem d name (CommandEntry.mk h1 t1) hm]
    exact hnd
  · rw [register_command]
    rw [keys_dictSet_of_not_mem d name (CommandEntry.mk h1 t1) hm]
    simp [List.nodup_append, hnd, hm, List.disjoint_singleton]

/-- Witness for the amended registration claim: overwriting a seeded table
keeps lookup on the last value and keeps the keys unique. -/
theorem register_command_spec_witness :
    dictGet (register_command [(pystr "help", CommandEntry.mk 1 (pystr "h"))]
        (pystr "help") 2 (pystr "e")).1 (pystr "help") =
      some (CommandEntry.mk 2 (pystr "e")) ∧
    ((((register_command [(pystr "help", CommandEntry.mk 1 (pystr "h"))]
        (pystr "help") 2 (pystr "e")).1).map Prod.fst).Nodup) :=
  ⟨(register_command_spec [(pystr "help", CommandEntry.mk 1 (pystr "h"))]
      (pystr "help") 2 2 (pystr "e") (pystr "e")).1,
   (register_command_spec [(pystr "help", CommandEntry.mk 1 (pystr "h"))]
      (pystr "help") 2 2 (pystr "e") (pystr "e")).2.2.2 (by decide)⟩

/-- C8: `create_bot` with an unknown class name reports it and returns no
bot; a constructor that raises is caught and converted to an empty result
with the failure reported and the live-bot list untouched; on success the
new instance is appended to the live-bot list and returned. -/
theorem create_bot_spec {B : Type} (m : ManagerState B) (cn bn : PyStr)
    (ch : Nat) :
    (dictGet m.botClasses cn = none →
      create_bot m cn bn ch = (m, none, [CreateLog.classNotFound cn])) ∧
    (∀ ctor e, dictGet m.botClasses cn = some ctor →
      ctor bn ch = Except.error e →
      create_bot m cn bn ch = (m, none, [CreateLog.createFailed e])) ∧
    (∀ ctor b, dictGet m.botClasses cn = some ctor →
      ctor bn ch = Except.ok b →
      create_bot m cn bn ch =
        ({ m with bots := m.bots ++ [b] }, some b,
         [CreateLog.created cn bn ch])) := by
  refine ⟨?_, ?_, ?_⟩
  · intro h
    simp [create_bot, h]
  · intro ctor e h1 h2
    simp [create_bot, h1, h2]
  · intro ctor b h1 h2
    simp [create_bot, h1, h2]

/-- Witness for the supervisor claim on a concrete registry holding one
working and one raising constructor. -/
theorem create_bot_spec_witness :
    create_bot sampleManager (pystr "NoSuchBot") (pystr "x") 0 =
      (sampleManager, none, [CreateLog.classNotFound (pystr "NoSuchBot")]) ∧
    create_bot sampleManager (pystr "FailingBot") (pystr "x") 0 =
      (sampleManager, none, [CreateLog.createFailed (pystr "boom")]) ∧
    create_bot sampleManager (pystr "HelloWorldBot") (pystr "x") 0 =
      ({ sampleManager with bots := [1] }, some 1,
       [CreateLog.created (pystr "HelloWorldBot") (pystr "x") 0]) :=
  ⟨(create_bot_spec sampleManager (pystr "NoSuchBot") (pystr "x") 0).1 rfl,
   (create_bot_spec sampleManager (pystr "FailingBot") (pystr "x") 0).2.1
     (fun _ _ => Except.error (pystr "boom")) (pystr "boom") rfl rfl,
   (create_bot_spec sampleManager (pystr "HelloWorldBot") (pystr "x") 0).2.2
     (fun _ _ => Except.ok 1) 1 rfl rfl⟩

/-- The throughput loop counts every tick when the transport accepts. -/
theorem throughputLoop_accepted (t s : Nat) :
    throughputLoop true t s = s + t := by
  induction t generalizing s with
  | zero => simp [throughputLoop]
  | succ n ih =>
    rw [throughputLoop, if_pos rfl, ih]
    omega

/-- The throughput loop counts nothing when the transport rejects. -/
theorem throughputLoop_rejected (t s : Nat) :
    throughputLoop false t s = s := by
  induction t generalizing s with
  | zero => rfl
  | succ n ih => simp [throughputLoop, ih]

/-- C9: with a transport that accepts every send, the idealised throughput
test over an N-second window with 0.5 s spacing reports a message count of
N * 2 — which is exactly floor(N / 0.5), hence within the claimed margin
of one — and a byte total of count * 200; with a transport on which no
send succeeds it reports the explicit no-messages failure instead. -/
theorem throughput_spec (n : Nat) (hn : 0 < n) :
    runThroughputTest true n = ThroughputResult.report (n * 2) (n * 2 * 200) ∧
    runThroughputTest false n = ThroughputResult.noMessages := by
  constructor
  · have ht := throughputLoop_accepted (n * 2) 0
    have hpos : 0 < n * 2 := by omega
    simp only [runThroughputTest, ht, Nat.zero_add]
    rw [if_pos hpos]
  · have hf := throughputLoop_rejected (n * 2) 0
    simp [runThroughputTest, hf]

/-- Witness for the throughput claim at the coded 10-second window. -/
theorem throughput_spec_witness :
    runThroughputTest true 10 = ThroughputResult.report 20 4000 ∧
    runThroughputTest false 10 = ThroughputResult.noMessages :=
  ⟨(throughput_spec 10 (by decide)).1, (throughput_spec 10 (by decide)).2⟩

end Mesh
